import Mathlib

/-!
Verification of the sentry relay webhook plugin (sentryrelay.py).

The development shallowly embeds the plugin code:
* HMAC-SHA256 (as used by `_has_valid_sig` through the Python `hmac` and `hashlib` modules)
  is implemented concretely on byte lists (`Nat` bytes, arithmetic mod 2^32);
* Python regexes used through `re.match` are modelled with the Mathlib type
  `RegularExpression Char`, with the prefix-anchored semantics of `re.match`
  (`reMatch`, matching any prefix of the subject);
* JSON values are an inductive `Json`; Python `d[k]` indexing raises
  `KeyError` on a missing key of a dict and `TypeError` on a non-dict,
  modelled with `Except PyErr`;
* external collaborators (json.loads, requests.get, the room list of the bot)
  are parameters of the handler.
-/

/-! ## Bytes, hex, UTF-8 -/

/-- 2^32, the word modulus of SHA-256. -/
def M32 : Nat := 4294967296

/-- Rotate the 32-bit word `x` right by `n` positions. -/
def rotr (n x : Nat) : Nat := ((x >>> n) ||| (x <<< (32 - n))) % M32

/-- Lowercase hexadecimal digit, as produced by Python `hexdigest`. -/
def hexChar (n : Nat) : Char := "0123456789abcdef".toList.getD n '0'

/-- Lowercase hex encoding of a byte string (`hexdigest`). -/
def bytesToHex (bs : List Nat) : String :=
  ⟨bs.flatMap (fun b => [hexChar ((b / 16) % 16), hexChar (b % 16)])⟩

/-- UTF-8 encoding of one character (Python `str.encode("utf-8")`). -/
def utf8Char (c : Char) : List Nat :=
  let n := c.toNat
  if n < 128 then [n]
  else if n < 2048 then [192 ||| (n >>> 6), 128 ||| (n &&& 63)]
  else if n < 65536 then
    [224 ||| (n >>> 12), 128 ||| ((n >>> 6) &&& 63), 128 ||| (n &&& 63)]
  else
    [240 ||| (n >>> 18), 128 ||| ((n >>> 12) &&& 63),
     128 ||| ((n >>> 6) &&& 63), 128 ||| (n &&& 63)]

/-- UTF-8 encoding of a string (Python `str.encode("utf-8")`). -/
def utf8 (s : String) : List Nat := s.toList.flatMap utf8Char

/-! ## SHA-256 (FIPS 180-4), as computed by Python `hashlib.sha256` -/

/-- The 64 round constants of SHA-256, in decimal. -/
def K256 : List Nat :=
  [1116352408, 1899447441, 3049323471, 3921009573, 961987163, 1508970993,
   2453635748, 2870763221, 3624381080, 310598401, 607225278, 1426881987,
   1925078388, 2162078206, 2614888103, 3248222580, 3835390401, 4022224774,
   264347078, 604807628, 770255983, 1249150122, 1555081692, 1996064986,
   2554220882, 2821834349, 2952996808, 3210313671, 3336571891, 3584528711,
   113926993, 338241895, 666307205, 773529912, 1294757372, 1396182291,
   1695183700, 1986661051, 2177026350, 2456956037, 2730485921, 2820302411,
   3259730800, 3345764771, 3516065817, 3600352804, 4094571909, 275423344,
   430227734, 506948616, 659060556, 883997877, 958139571, 1322822218,
   1537002063, 1747873779, 1955562222, 2024104815, 2227730452, 2361852424,
   2428436474, 2756734187, 3204031479, 3329325298]

/-- The eight-word SHA-256 working state. -/
structure H8 where
  a : Nat
  b : Nat
  c : Nat
  d : Nat
  e : Nat
  f : Nat
  g : Nat
  h : Nat

/-- The initial hash value of SHA-256, in decimal. -/
def initH : H8 :=
  ⟨1779033703, 3144134277, 1013904242, 2773480762,
   1359893119, 2600822924, 528734635, 1541459225⟩

/-- `Ch` function of SHA-256. -/
def ch32 (e f g : Nat) : Nat := (e &&& f) ^^^ ((e ^^^ 4294967295) &&& g)

/-- `Maj` function of SHA-256. -/
def maj32 (a b c : Nat) : Nat := (a &&& b) ^^^ (a &&& c) ^^^ (b &&& c)

/-- Big sigma-0. -/
def bsig0 (x : Nat) : Nat := (rotr 2 x) ^^^ (rotr 13 x) ^^^ (rotr 22 x)

/-- Big sigma-1. -/
def bsig1 (x : Nat) : Nat := (rotr 6 x) ^^^ (rotr 11 x) ^^^ (rotr 25 x)

/-- Small sigma-0. -/
def ssig0 (x : Nat) : Nat := (rotr 7 x) ^^^ (rotr 18 x) ^^^ (x >>> 3)

/-- Small sigma-1. -/
def ssig1 (x : Nat) : Nat := (rotr 17 x) ^^^ (rotr 19 x) ^^^ (x >>> 10)

/-- The 8-byte big-endian encoding of the message bit length. -/
def lenBytes (n : Nat) : List Nat :=
  [(n >>> 56) % 256, (n >>> 48) % 256, (n >>> 40) % 256, (n >>> 32) % 256,
   (n >>> 24) % 256, (n >>> 16) % 256, (n >>> 8) % 256, n % 256]

/-- SHA-256 message padding: append `0x80`, zeros to 56 mod 64, then the
bit length as 8 big-endian bytes. -/
def shaPad (msg : List Nat) : List Nat :=
  let L := msg.length
  let zeros := (64 - ((L + 9) % 64)) % 64
  msg ++ 128 :: List.replicate zeros 0 ++ lenBytes (8 * L)

/-- Group bytes into big-endian 32-bit words. -/
def words4 : List Nat → List Nat
  | a :: b :: c :: d :: rest =>
      (a * 16777216 + b * 65536 + c * 256 + d) :: words4 rest
  | _ => []

/-- Group words into 16-word blocks. -/
def blocks16 : List Nat → List (List Nat)
  | w0 :: w1 :: w2 :: w3 :: w4 :: w5 :: w6 :: w7 ::
    w8 :: w9 :: w10 :: w11 :: w12 :: w13 :: w14 :: w15 :: rest =>
      [w0, w1, w2, w3, w4, w5, w6, w7,
       w8, w9, w10, w11, w12, w13, w14, w15] :: blocks16 rest
  | _ => []

/-- Extend the message schedule by `n` words; the accumulator holds the
schedule so far in reverse order. -/
def extendW : Nat → List Nat → List Nat
  | 0, r => r
  | n + 1, r =>
      extendW n
        (((ssig1 (r.getD 1 0) + r.getD 6 0 + ssig0 (r.getD 14 0) +
            r.getD 15 0) % M32) :: r)

/-- The 64-word message schedule of a 16-word block. -/
def msgSchedule (blk : List Nat) : List Nat := (extendW 48 blk.reverse).reverse

/-- One SHA-256 compression round. -/
def round256 (s : H8) (k w : Nat) : H8 :=
  let t1 := (s.h + bsig1 s.e + ch32 s.e s.f s.g + k + w) % M32
  let t2 := (bsig0 s.a + maj32 s.a s.b s.c) % M32
  ⟨(t1 + t2) % M32, s.a, s.b, s.c, (s.d + t1) % M32, s.e, s.f, s.g⟩

/-- Compress one 16-word block into the running hash state. -/
def compress (s : H8) (blk : List Nat) : H8 :=
  let t := (K256.zip (msgSchedule blk)).foldl (fun st kw => round256 st kw.1 kw.2) s
  ⟨(s.a + t.a) % M32, (s.b + t.b) % M32, (s.c + t.c) % M32, (s.d + t.d) % M32,
   (s.e + t.e) % M32, (s.f + t.f) % M32, (s.g + t.g) % M32, (s.h + t.h) % M32⟩

/-- The 4-byte big-endian encoding of a 32-bit word. -/
def wordBytes (w : Nat) : List Nat :=
  [(w >>> 24) % 256, (w >>> 16) % 256, (w >>> 8) % 256, w % 256]

/-- SHA-256 of a byte string, as a 32-byte string. -/
def sha256 (msg : List Nat) : List Nat :=
  let s := (blocks16 (words4 (shaPad msg))).foldl compress initH
  wordBytes s.a ++ wordBytes s.b ++ wordBytes s.c ++ wordBytes s.d ++
  wordBytes s.e ++ wordBytes s.f ++ wordBytes s.g ++ wordBytes s.h

/-- HMAC-SHA256 (RFC 2104) of `msg` keyed by `key`, as computed by Python
`hmac.new(key, msg, hashlib.sha256).digest()`. -/
def hmacSha256 (key msg : List Nat) : List Nat :=
  let k0 := if 64 < key.length then sha256 key else key
  let k1 := k0 ++ List.replicate (64 - k0.length) 0
  sha256 ((k1.map (fun b => b ^^^ 92)) ++
    sha256 ((k1.map (fun b => b ^^^ 54)) ++ msg))

/-- `hmac.new(key, msg, hashlib.sha256).hexdigest()`: lowercase hex. -/
def hmacSha256Hex (key msg : List Nat) : String := bytesToHex (hmacSha256 key msg)

/-! ## Regular expressions and `re.match`

Python patterns are modelled as Mathlib `RegularExpression Char` values.
`re.match(pat, s)` anchors at the start of `s` and succeeds iff some
prefix of `s` is in the pattern language. -/

/-- A compiled pattern, as handed to `re.match`. -/
abbrev Pat := RegularExpression Char

/-- `re.match(r, s)` succeeds: some prefix of `s` (the match is anchored at
the start, need not span the whole string) is accepted by `r`. -/
def reMatch (r : Pat) (s : String) : Bool :=
  s.toList.inits.any fun p => r.rmatch p

/-- `_is_ignored`: scan `self.config["IGNORE"]` in order, `True` on the
first pattern that `re.match`es the slug. -/
def is_ignored (ignore : List Pat) (slug : String) : Bool :=
  match ignore with
  | [] => false
  | p :: ps => if reMatch p slug then true else is_ignored ps slug

/-- `_get_project_token`: scan `self.config["TOKENS"].items()` in order,
return the token of the first pattern that `re.match`es the slug. -/
def get_project_token (tokens : List (Pat × String)) (slug : String) :
    Option String :=
  match tokens with
  | [] => none
  | (p, t) :: ps => if reMatch p slug then some t else get_project_token ps slug

/-! ## JSON values and Python dict indexing -/

/-- A parsed JSON value (the result of `json.loads` / `req.json()`). -/
inductive Json where
  | null : Json
  | bool (b : Bool) : Json
  | num (n : Int) : Json
  | str (s : String) : Json
  | arr (xs : List Json) : Json
  | obj (fields : List (String × Json)) : Json

/-- Python exceptions the handler can raise. -/
inductive PyErr where
  | keyError (k : String) : PyErr
  | typeError : PyErr
  | jsonDecodeError : PyErr
deriving DecidableEq

/-- Python `d[k]`: `KeyError` on a dict without the key, `TypeError` when
indexing a non-dict with a string key. -/
def jsonGet (j : Json) (k : String) : Except PyErr Json :=
  match j with
  | .obj fields =>
      match fields.lookup k with
      | some v => .ok v
      | none => .error (.keyError k)
  | _ => .error .typeError

/-- Chained indexing `j[k1][k2]...`; the first exception propagates. -/
def jsonPath : Json → List String → Except PyErr Json
  | j, [] => .ok j
  | j, k :: ks =>
      match jsonGet j k with
      | .ok v => jsonPath v ks
      | .error e => .error e

mutual

/-- Python `repr` of a JSON value (used by `str` on lists and dicts). -/
def pyRepr : Json → String
  | .null => "None"
  | .bool true => "True"
  | .bool false => "False"
  | .num n => toString n
  | .str s => "\x27" ++ s ++ "\x27"
  | .arr xs => "[" ++ String.intercalate ", " (pyReprList xs) ++ "]"
  | .obj fs => "\x7b" ++ String.intercalate ", " (pyReprFields fs) ++ "\x7d"

/-- `repr` of the elements of a list. -/
def pyReprList : List Json → List String
  | [] => []
  | j :: js => pyRepr j :: pyReprList js

/-- `repr` of the entries of a dict. -/
def pyReprFields : List (String × Json) → List String
  | [] => []
  | (k, v) :: fs => ("\x27" ++ k ++ "\x27: " ++ pyRepr v) :: pyReprFields fs

end

/-- Python `str()` of a JSON value, as interpolated by an f-string or
`str.format`. -/
def pyStr : Json → String
  | .str s => s
  | j => pyRepr j

/-! ## Plugin configuration -/

/-- The post-activation configuration the handler reads:
`CLIENT_SECRET`, the ordered `TOKENS` mapping, and the `IGNORE` list. -/
structure Config where
  secret : String
  tokens : List (Pat × String)
  ignore : List Pat

/-- The value stored under `IGNORE` before validation: either a list of
patterns or some non-list value. -/
inductive IgnoreVal where
  | list (pats : List Pat) : IgnoreVal
  | notList : IgnoreVal

/-- The raw configuration dict: each key may be absent. -/
structure RawConfig where
  client_secret : Option String
  tokens : Option (List (Pat × String))
  ignore : Option IgnoreVal

/-- `check_configuration`: require the `TOKENS` and `CLIENT_SECRET` keys
(in that loop order), and that `IGNORE`, when present, is a list. -/
def check_configuration (c : RawConfig) : Except String Unit :=
  match c.tokens with
  | none => .error "configuration must contain TOKENS"
  | some _ =>
      match c.client_secret with
      | none => .error "configuration must contain CLIENT_SECRET"
      | some _ =>
          match c.ignore with
          | some .notList => .error "IGNORE must be a list of regular expressions"
          | _ => .ok ()

/-- `activate`: refuse activation when `self.config` is `None` or an empty
(falsy) dict; otherwise default `IGNORE` to `[]` and activate.  The result
is `none` when activation was forbidden, `some` of the effective
configuration otherwise. -/
def activate : Option RawConfig → Option RawConfig
  | none => none
  | some c =>
      if c.client_secret.isNone && c.tokens.isNone && c.ignore.isNone then none
      else some { c with ignore := some (c.ignore.getD (IgnoreVal.list [])) }

/-! ## Signature verification -/

/-- `_has_valid_sig`: with no `Sentry-Hook-Signature` header return `False`
(here `none`); compute the lowercase-hex HMAC-SHA256 of the raw body keyed
by the UTF-8 encoded `CLIENT_SECRET`; on mismatch return `False`, on match
return the body bytes themselves (here `some body`). -/
def has_valid_sig (secret : String) (body : List Nat) (sig : Option String) :
    Option (List Nat) :=
  match sig with
  | none => none
  | some s => if hmacSha256Hex (utf8 secret) body = s then some body else none

/-! ## Issue fetch -/

/-- The issue-detail URL, `ISSUE_PATH.format(prefix=API_PREFIX, ...)` with
the source constants inlined. -/
def issueUrl (issue_id : Json) : String :=
  "https://sentry.io/api/0" ++ "/issues/" ++ pyStr issue_id ++ "/"

/-- The authorization header sent with the issue fetch. -/
def authHeaders (token : String) : List (String × String) :=
  [("Authorization", "Bearer " ++ token)]

/-- `_get_issue`: GET the issue endpoint; any status other than 200 yields
`False` (here `none`), a 200 yields the response JSON body.  The HTTP
transport (`requests.get`) is the parameter `httpGet`, mapping a URL and
headers to a status code and parsed body. -/
def get_issue (httpGet : String → List (String × String) → Nat × Json)
    (issue_id : Json) (token : String) : Option Json :=
  let r := httpGet (issueUrl issue_id) (authHeaders token)
  if r.1 ≠ 200 then none else some r.2

/-! ## The webhook handler -/

/-- `_is_ignored` as called on the extracted slug value: when the ignore
list is non-empty, the first `re.match` call raises `TypeError` if the
subject is not a string; with an empty list no pattern is tried. -/
def is_ignoredE (ignore : List Pat) (subject : Json) : Except PyErr Bool :=
  match ignore with
  | [] => .ok false
  | ps@(_ :: _) =>
      match subject with
      | .str s => .ok (is_ignored ps s)
      | _ => .error .typeError

/-- `_get_project_token` as called on the extracted slug value; as with
`is_ignoredE`, `re.match` raises `TypeError` on a non-string subject. -/
def get_project_tokenE (tokens : List (Pat × String)) (subject : Json) :
    Except PyErr (Option String) :=
  match tokens with
  | [] => .ok none
  | ps@(_ :: _) =>
      match subject with
      | .str s => .ok (get_project_token ps s)
      | _ => .error .typeError

/-- `_color_string`: backtick-delimited span with a color attribute. -/
def color_string (color s : String) : String :=
  "`" ++ s ++ "`\x7b:color=\x27" ++ color ++ "\x27\x7d"

/-- `_format_project`. -/
def format_project (s : String) : String := color_string "cyan" s

/-- `_format_action`. -/
def format_action (s : String) : String := color_string "magenta" s

/-- `_format_url`. -/
def format_url (s : String) : String := color_string "cyan" s

/-- How a run of `sentry_notification` terminated: a `flask.abort`, a
normal `(body, code)` return, or an uncaught Python exception. -/
inductive Outcome where
  | abort (code : Nat) (msg : Option String) : Outcome
  | response (body : String) (code : Nat) : Outcome
  | crash (e : PyErr) : Outcome
deriving DecidableEq

/-- A run of the handler: its terminal outcome, whether `json.loads` ran
to completion, whether `_get_project_token` was called, whether
`_get_issue` issued its HTTP request, and every `(target, message)` pair
handed to `self.send`. -/
structure RunResult where
  outcome : Outcome
  parsed : Bool
  tokenLookup : Bool
  apiCalled : Bool
  sent : List (String × String)
deriving DecidableEq

/-- The webhook handler `sentry_notification`, embedded as a function of
the configuration, the joined rooms of the bot (`self.rooms()`, by room name),
the JSON decoder (`json.loads`, `none` modelling a raised decode error),
the HTTP transport (`requests.get`), and the request (raw body bytes, the
`Sentry-Hook-Signature` header, and the `<channel>` path segment). -/
def sentry_notification (cfg : Config) (rooms : List String)
    (jsonLoads : List Nat → Option Json)
    (httpGet : String → List (String × String) → Nat × Json)
    (body : List Nat) (sig : Option String) (channel : String) : RunResult :=
  match has_valid_sig cfg.secret body sig with
  | none => ⟨.abort 403 none, false, false, false, []⟩
  | some req_data =>
    -- `if not req_data`: an empty byte string is falsy, so it aborts too
    if req_data.isEmpty then ⟨.abort 403 none, false, false, false, []⟩
    else
      match jsonLoads req_data with
      | none => ⟨.crash .jsonDecodeError, false, false, false, []⟩
      | some payload =>
        let ch := "#" ++ channel
        if ch ∈ rooms then
          let cont := fun (slug : Json) =>
            match is_ignoredE cfg.ignore slug with
            | .error e => ⟨.crash e, true, false, false, []⟩
            | .ok true =>
                ⟨.response "Valid message, not relayed." 200, true, false, false, []⟩
            | .ok false =>
                match get_project_tokenE cfg.tokens slug with
                | .error e => ⟨.crash e, true, true, false, []⟩
                | .ok none =>
                    ⟨.abort 403 (some "Valid message, but no token found."),
                     true, true, false, []⟩
                | .ok (some token) =>
                    match jsonPath payload ["data", "issue", "id"] with
                    | .error e => ⟨.crash e, true, true, false, []⟩
                    | .ok issue_id =>
                        match get_issue httpGet issue_id token with
                        | none =>
                            -- `issue` is `False`; `issue["permalink"]` raises
                            ⟨.crash .typeError, true, true, true, []⟩
                        | some issue =>
                            match jsonGet issue "permalink" with
                            | .error e => ⟨.crash e, true, true, true, []⟩
                            | .ok issue_url =>
                                match jsonGet payload "action" with
                                | .error e => ⟨.crash e, true, true, true, []⟩
                                | .ok action =>
                                    match jsonPath payload ["data", "issue", "title"] with
                                    | .error e => ⟨.crash e, true, true, true, []⟩
                                    | .ok title =>
                                        -- `_color_string` concatenates, so a non-string
                                        -- action or permalink raises `TypeError`
                                        match action, issue_url with
                                        | .str a, .str u =>
                                            let message :=
                                              color_string "red" "SENTRY" ++ " [" ++
                                              format_project (pyStr slug) ++ "]" ++
                                              " issue " ++ format_action a ++ ":" ++
                                              " " ++ pyStr title ++ " " ++ format_url u
                                            ⟨.response ("Message relayed to " ++ ch) 202,
                                             true, true, true, [(ch, message)]⟩
                                        | _, _ => ⟨.crash .typeError, true, true, true, []⟩
          match jsonPath payload ["data", "issue", "project", "slug"] with
          | .error (.keyError _) => cont (.str "(no project slug)")
          | .error e => ⟨.crash e, true, false, false, []⟩
          | .ok v => cont v
        else ⟨.abort 404 none, true, false, false, []⟩

/-! ## Fixtures used by witnesses and counterexamples -/

/-- A decoder for a body that is not valid JSON: `json.loads` raises. -/
def decodeNone : List Nat → Option Json := fun _ => none

/-- A decoder for a body whose parsed form is `j`. -/
def decodeConst (j : Json) : List Nat → Option Json := fun _ => some j

/-- A transport whose every response has the given status and body. -/
def httpConst (code : Nat) (j : Json) :
    String → List (String × String) → Nat × Json := fun _ _ => (code, j)

/-- The regex `a`. -/
def patA : Pat := RegularExpression.char 'a'

/-- The regex `b`. -/
def patB : Pat := RegularExpression.char 'b'

/-- The regex `a*`, which matches (a prefix of) every subject. -/
def patAstar : Pat := RegularExpression.star (RegularExpression.char 'a')

/-- Flip bit `i` of a byte string (bit `i % 8` of byte `i / 8`). -/
def flipBit (bs : List Nat) (i : Nat) : List Nat :=
  bs.mapIdx fun j x => if j = i / 8 then x ^^^ (1 <<< (i % 8)) else x

/-! ## Helper lemmas -/

/-- `re.match` is prefix-anchored: it succeeds exactly when some prefix of
the subject lies in the pattern language. -/
theorem reMatch_iff (r : Pat) (s : String) :
    reMatch r s = true ↔ ∃ p, p <+: s.toList ∧ p ∈ r.matches' := by
  unfold reMatch
  rw [List.any_eq_true]
  constructor
  · rintro ⟨p, hp, hm⟩
    exact ⟨p, (List.mem_inits _ _).1 hp,
      (RegularExpression.rmatch_iff_matches' _ _).1 hm⟩
  · rintro ⟨p, hp, hm⟩
    exact ⟨p, (List.mem_inits _ _).2 hp,
      (RegularExpression.rmatch_iff_matches' _ _).2 hm⟩

/-- Each hex digit produced by `hexChar` on a nibble is lowercase hex. -/
theorem hexChar_mem (n : Nat) (hn : n < 16) :
    hexChar n ∈ "0123456789abcdef".toList := by
  interval_cases n <;> decide

/-- Every character of a hex digest is a lowercase hex digit. -/
theorem bytesToHex_chars (bs : List Nat) :
    ∀ c ∈ (bytesToHex bs).toList, c ∈ "0123456789abcdef".toList := by
  intro c hc
  have hc2 : c ∈ bs.flatMap
      (fun b => [hexChar ((b / 16) % 16), hexChar (b % 16)]) := hc
  rw [List.mem_flatMap] at hc2
  obtain ⟨b, _, hcb⟩ := hc2
  have h16a : (b / 16) % 16 < 16 := Nat.mod_lt _ (by omega)
  have h16b : b % 16 < 16 := Nat.mod_lt _ (by omega)
  simp only [List.mem_cons, List.not_mem_nil, or_false] at hcb
  rcases hcb with hcb | hcb
  · exact hcb ▸ hexChar_mem _ h16a
  · exact hcb ▸ hexChar_mem _ h16b

/-- A hex digest has two characters per byte. -/
theorem bytesToHex_length (bs : List Nat) :
    (bytesToHex bs).length = 2 * bs.length := by
  have h : ∀ l : List Nat,
      (l.flatMap (fun b => [hexChar ((b / 16) % 16), hexChar (b % 16)])).length
        = 2 * l.length := by
    intro l
    induction l with
    | nil => rfl
    | cons b rest ih => simp [List.flatMap_cons, ih]; omega
  exact h bs

/-- SHA-256 digests are 32 bytes. -/
theorem sha256_length (msg : List Nat) : (sha256 msg).length = 32 := by
  simp [sha256, wordBytes]

/-- A wrong signature header value is rejected by `_has_valid_sig`. -/
theorem has_valid_sig_mismatch (secret : String) (body : List Nat) (s : String)
    (hs : s ≠ hmacSha256Hex (utf8 secret) body) :
    has_valid_sig secret body (some s) = none := by
  simp only [has_valid_sig, ite_eq_right_iff]
  intro e
  exact absurd e.symm hs

/-- The correct signature header value is accepted by `_has_valid_sig`. -/
theorem has_valid_sig_correct_sig (secret : String) (body : List Nat) :
    has_valid_sig secret body (some (hmacSha256Hex (utf8 secret) body)) =
      some body := by
  simp [has_valid_sig]

/-! ## The claims -/

/-- Claim C1: for every payload byte string `b` and header value `h`,
`_has_valid_sig` succeeds (returns the data rather than `False`) iff `h`
equals the lowercase hexadecimal HMAC-SHA256 of `b` keyed by the
configured shared secret; any changed header value (in particular one with
a flipped bit) is rejected, and flipping any bit of `b` is rejected
whenever it changes the digest (which is the defining property of the
HMAC); the digest is 64 lowercase hex characters. -/
theorem C1_signature_verification (secret : String) (b : List Nat) (h : String) :
    (has_valid_sig secret b (some h) = some b ↔
      h = hmacSha256Hex (utf8 secret) b)
    ∧ (∀ h2 : String, h = hmacSha256Hex (utf8 secret) b → h2 ≠ h →
        has_valid_sig secret b (some h2) = none)
    ∧ (∀ i : Nat,
        hmacSha256Hex (utf8 secret) (flipBit b i) ≠ hmacSha256Hex (utf8 secret) b →
        h = hmacSha256Hex (utf8 secret) b →
        has_valid_sig secret (flipBit b i) (some h) = none)
    ∧ (∀ c ∈ (hmacSha256Hex (utf8 secret) b).toList,
        c ∈ "0123456789abcdef".toList)
    ∧ (hmacSha256Hex (utf8 secret) b).length = 64 := by
  refine ⟨?_, ?_, ?_, ?_, ?_⟩
  · constructor
    · intro he
      by_cases hd : hmacSha256Hex (utf8 secret) b = h
      · exact hd.symm
      · simp [has_valid_sig, hd] at he
    · intro he
      simp [has_valid_sig, he]
  · intro h2 he hne
    exact has_valid_sig_mismatch _ _ _ (he ▸ hne)
  · intro i hd he
    exact has_valid_sig_mismatch _ _ _ (fun e => hd (he ▸ e).symm)
  · exact bytesToHex_chars _
  · rw [hmacSha256Hex, bytesToHex_length, hmacSha256, sha256_length]

set_option maxRecDepth 400000 in
/-- Witness for C1 at the template secret `"f9876"` and the one-byte body
`"x"`: the correct digest is accepted, the empty header and the digest of
the bit-flipped body are rejected, and the bit flip does change the
digest. -/
theorem C1_witness :
    has_valid_sig "f9876" (utf8 "x")
        (some (hmacSha256Hex (utf8 "f9876") (utf8 "x"))) = some (utf8 "x")
    ∧ has_valid_sig "f9876" (utf8 "x") (some "") = none
    ∧ hmacSha256Hex (utf8 "f9876") (flipBit (utf8 "x") 0) ≠
        hmacSha256Hex (utf8 "f9876") (utf8 "x")
    ∧ has_valid_sig "f9876" (flipBit (utf8 "x") 0)
        (some (hmacSha256Hex (utf8 "f9876") (utf8 "x"))) = none := by
  have hflip : hmacSha256Hex (utf8 "f9876") (flipBit (utf8 "x") 0) ≠
      hmacSha256Hex (utf8 "f9876") (utf8 "x") := by decide
  refine ⟨(C1_signature_verification "f9876" (utf8 "x") _).1.mpr rfl,
    (C1_signature_verification "f9876" (utf8 "x")
      (hmacSha256Hex (utf8 "f9876") (utf8 "x"))).2.1 "" rfl (by decide),
    hflip,
    (C1_signature_verification "f9876" (utf8 "x")
      (hmacSha256Hex (utf8 "f9876") (utf8 "x"))).2.2.1 0 hflip rfl⟩

/-- Claim C2: a request with an absent `Sentry-Hook-Signature` header and a
request with a mismatched one both terminate as the identical 403 abort,
before `json.loads` runs (`parsed = false`), with no token lookup, no
enrichment HTTP call, and no message sent. -/
theorem C2_signature_reject (cfg : Config) (rooms : List String)
    (jsonLoads : List Nat → Option Json)
    (httpGet : String → List (String × String) → Nat × Json)
    (body : List Nat) (channel : String) :
    sentry_notification cfg rooms jsonLoads httpGet body none channel =
      ⟨.abort 403 none, false, false, false, []⟩
    ∧ (∀ s : String, s ≠ hmacSha256Hex (utf8 cfg.secret) body →
        sentry_notification cfg rooms jsonLoads httpGet body (some s) channel =
          ⟨.abort 403 none, false, false, false, []⟩) := by
  constructor
  · simp [sentry_notification, has_valid_sig]
  · intro s hs
    rw [sentry_notification, has_valid_sig_mismatch _ _ _ hs]

set_option maxRecDepth 400000 in
/-- Witness for C2: with the template secret, a missing header and the
wrong header `"deadbeef"` both produce the same 403 abort record. -/
theorem C2_witness :
    sentry_notification ⟨"f9876", [(patA, "tok")], []⟩ ["#chan"]
        (decodeConst Json.null) (httpConst 200 Json.null) (utf8 "x") none
        "chan" = ⟨.abort 403 none, false, false, false, []⟩
    ∧ sentry_notification ⟨"f9876", [(patA, "tok")], []⟩ ["#chan"]
        (decodeConst Json.null) (httpConst 200 Json.null) (utf8 "x")
        (some "deadbeef") "chan" =
        ⟨.abort 403 none, false, false, false, []⟩ :=
  ⟨(C2_signature_reject _ _ _ _ _ _).1,
   (C2_signature_reject _ _ _ _ _ _).2 "deadbeef" (by decide)⟩

/-- Claim C10: a request whose raw body is empty is rejected with a 403
even under the correct HMAC header: `_has_valid_sig` returns the body
bytes on success and the handler treats the empty (falsy) byte string as
failure. -/
theorem C10_empty_body_rejected (cfg : Config) (rooms : List String)
    (jsonLoads : List Nat → Option Json)
    (httpGet : String → List (String × String) → Nat × Json)
    (channel : String) :
    has_valid_sig cfg.secret [] (some (hmacSha256Hex (utf8 cfg.secret) [])) =
      some []
    ∧ sentry_notification cfg rooms jsonLoads httpGet []
        (some (hmacSha256Hex (utf8 cfg.secret) [])) channel =
        ⟨.abort 403 none, false, false, false, []⟩ := by
  constructor
  · exact has_valid_sig_correct_sig _ _
  · rw [sentry_notification, has_valid_sig_correct_sig]
    rfl

/-- Claim C3: for every project identifier and ordered pattern list, the
outcome is decided by the first pattern (in list order) whose
prefix-anchored match succeeds — later patterns, even contradictory ones,
are irrelevant — and token resolution yields no token when no pattern
matches; `re.match` succeeds exactly when some prefix of the subject is in
the pattern language (match-from-start, not full-string, not
substring-anywhere). -/
theorem C3_first_match_wins :
    (∀ (r : Pat) (s : String),
        reMatch r s = true ↔ ∃ p, p <+: s.toList ∧ p ∈ r.matches')
    ∧ (∀ (pre post : List Pat) (q : Pat) (s : String),
        (∀ p ∈ pre, reMatch p s = false) → reMatch q s = true →
        is_ignored (pre ++ q :: post) s = true)
    ∧ (∀ (ignore : List Pat) (s : String),
        (∀ p ∈ ignore, reMatch p s = false) → is_ignored ignore s = false)
    ∧ (∀ (pre post : List (Pat × String)) (q : Pat) (t s : String),
        (∀ e ∈ pre, reMatch e.1 s = false) → reMatch q s = true →
        get_project_token (pre ++ (q, t) :: post) s = some t)
    ∧ (∀ (tokens : List (Pat × String)) (s : String),
        (∀ e ∈ tokens, reMatch e.1 s = false) →
        get_project_token tokens s = none) := by
  refine ⟨reMatch_iff, ?_, ?_, ?_, ?_⟩
  · intro pre post q s hpre hq
    induction pre with
    | nil => simp [is_ignored, hq]
    | cons p ps ih =>
        have hp := hpre p (List.mem_cons_self _ _)
        simp only [List.cons_append, is_ignored, hp, if_false, Bool.false_eq_true]
        exact ih fun x hx => hpre x (List.mem_cons_of_mem _ hx)
  · intro ignore s hpre
    induction ignore with
    | nil => rfl
    | cons p ps ih =>
        have hp := hpre p (List.mem_cons_self _ _)
        simp only [is_ignored, hp, if_false, Bool.false_eq_true]
        exact ih fun x hx => hpre x (List.mem_cons_of_mem _ hx)
  · intro pre post q t s hpre hq
    induction pre with
    | nil => simp [get_project_token, hq]
    | cons e es ih =>
        have he := hpre e (List.mem_cons_self _ _)
        obtain ⟨p, u⟩ := e
        simp only [List.cons_append, get_project_token, he, if_false,
          Bool.false_eq_true] at *
        exact ih fun x hx => hpre x (List.mem_cons_of_mem _ hx)
  · intro tokens s hpre
    induction tokens with
    | nil => rfl
    | cons e es ih =>
        have he := hpre e (List.mem_cons_self _ _)
        obtain ⟨p, u⟩ := e
        simp only [get_project_token, he, if_false, Bool.false_eq_true] at *
        exact ih fun x hx => hpre x (List.mem_cons_of_mem _ hx)

/-- Witness for C3 on the subject `"ab"`: the non-matching pattern `b` is
skipped, the matching pattern `a` wins over the later (also matching,
contradictory) entry `a*`, and a list with no matching pattern yields no
token. -/
theorem C3_witness :
    get_project_token [(patB, "t0"), (patA, "t1"), (patAstar, "t2")] "ab" =
      some "t1"
    ∧ is_ignored [patB, patAstar] "ab" = true
    ∧ get_project_token [(patB, "t0")] "ab" = none := by
  have hb : ∀ e ∈ [(patB, "t0")], reMatch e.1 "ab" = false := by
    intro e he
    rw [List.mem_singleton] at he
    subst he
    decide
  refine ⟨C3_first_match_wins.2.2.2.1 [(patB, "t0")] [(patAstar, "t2")] patA
      "t1" "ab" hb (by decide),
    C3_first_match_wins.2.1 [patB] [] patAstar "ab" ?_ (by decide),
    C3_first_match_wins.2.2.2.2 [(patB, "t0")] "ab" hb⟩
  intro p hp
  rw [List.mem_singleton] at hp
  subst hp
  decide

/-- Claim C6: `_get_issue` returns the failure value (`False`, here `none`)
iff the API responds with a status other than 200 — no distinction among
failure kinds — and on a 200 it returns the parsed JSON body. -/
theorem C6_get_issue_status
    (httpGet : String → List (String × String) → Nat × Json)
    (issue_id : Json) (token : String) :
    (get_issue httpGet issue_id token = none ↔
      (httpGet (issueUrl issue_id) (authHeaders token)).1 ≠ 200)
    ∧ ((httpGet (issueUrl issue_id) (authHeaders token)).1 = 200 →
        get_issue httpGet issue_id token =
          some (httpGet (issueUrl issue_id) (authHeaders token)).2) := by
  by_cases hst : (httpGet (issueUrl issue_id) (authHeaders token)).1 = 200 <;>
    simp [get_issue, hst]

/-- Witness for C6: a 404 response yields the failure value, a 200
response yields its body. -/
theorem C6_witness :
    get_issue (httpConst 404 Json.null) (Json.num 1) "tok" = none
    ∧ get_issue (httpConst 200 (Json.str "ok")) (Json.num 1) "tok" =
        some (Json.str "ok") :=
  ⟨(C6_get_issue_status (httpConst 404 Json.null) (Json.num 1) "tok").1.mpr
      (by decide),
   (C6_get_issue_status (httpConst 200 (Json.str "ok")) (Json.num 1) "tok").2
      rfl⟩

/-- Presence of the `TOKENS` and `CLIENT_SECRET` keys is what
`check_configuration` enforces. -/
theorem check_configuration_keys (c : RawConfig)
    (hchk : check_configuration c = .ok ()) :
    c.tokens ≠ none ∧ c.client_secret ≠ none := by
  constructor
  · intro hn
    simp [check_configuration, hn] at hchk
  · intro hn
    cases htk : c.tokens with
    | none => simp [check_configuration, htk] at hchk
    | some t => simp [check_configuration, htk, hn] at hchk

/-- A raw configuration with both required keys present but an empty
secret string and an empty token mapping. -/
def cfgEmptyVals : RawConfig := ⟨some "", some [], none⟩

/-- Counterexample to C9: `check_configuration` accepts, and `activate`
activates, a configuration whose `CLIENT_SECRET` is the empty string and
whose `TOKENS` mapping is empty, so "shared secret and token mapping are
non-empty after activation" fails on the code. -/
theorem C9_counterexample :
    check_configuration cfgEmptyVals = Except.ok ()
    ∧ activate (some cfgEmptyVals) =
        some ⟨some "", some [], some (IgnoreVal.list [])⟩ := ⟨rfl, rfl⟩

/-- Claim C9, amended: activation carries the secret and token mapping
over unchanged (without enforcing non-emptiness of their values) and
defaults the ignore list to the empty list when it was not supplied;
`check_configuration` enforces only the presence of the `TOKENS` and
`CLIENT_SECRET` keys.  Immutability of the configuration during request
handling holds by construction: the handler is a pure function of the
configuration and returns none of it. -/
theorem C9_amended (c cA : RawConfig) (hact : activate (some c) = some cA) :
    cA.client_secret = c.client_secret
    ∧ cA.tokens = c.tokens
    ∧ cA.ignore = some (c.ignore.getD (IgnoreVal.list []))
    ∧ (check_configuration c = .ok () →
        c.tokens ≠ none ∧ c.client_secret ≠ none) := by
  simp only [activate] at hact
  split at hact
  · cases hact
  · obtain rfl := Option.some.inj hact
    exact ⟨rfl, rfl, rfl, fun hchk => check_configuration_keys c hchk⟩

/-- The configuration-template secret and first token entry, as a raw
configuration without an `IGNORE` key. -/
def cfgRawDemo : RawConfig := ⟨some "f9876", some [(patA, "a1234")], none⟩

/-- Witness for C9 (amended): activating a configuration without `IGNORE`
defaults the ignore list to `[]`, and its keys are present. -/
theorem C9_witness :
    activate (some cfgRawDemo) =
      some ⟨some "f9876", some [(patA, "a1234")], some (IgnoreVal.list [])⟩
    ∧ cfgRawDemo.tokens ≠ none ∧ cfgRawDemo.client_secret ≠ none := by
  have h := C9_amended cfgRawDemo
    ⟨some "f9876", some [(patA, "a1234")], some (IgnoreVal.list [])⟩ rfl
  exact ⟨rfl, h.2.2.2 rfl⟩

/-- `_is_ignored` on a string subject never raises. -/
theorem is_ignoredE_str (ignore : List Pat) (s : String) :
    is_ignoredE ignore (.str s) = .ok (is_ignored ignore s) := by
  cases ignore <;> rfl

/-- `_get_project_token` on a string subject never raises. -/
theorem get_project_tokenE_str (tokens : List (Pat × String)) (s : String) :
    get_project_tokenE tokens (.str s) = .ok (get_project_token tokens s) := by
  cases tokens <;> rfl

/-- Claim C4: a verified request whose decoded slug matches an ignore
pattern — even when it also matches a token pattern — terminates with the
200 "Valid message, not relayed." response, with no token lookup, no
enrichment HTTP call, and no message sent. -/
theorem C4_ignored_request (cfg : Config) (rooms : List String)
    (jsonLoads : List Nat → Option Json)
    (httpGet : String → List (String × String) → Nat × Json)
    (body : List Nat) (channel : String) (payload : Json) (slug : String)
    (hbody : body ≠ [])
    (hdec : jsonLoads body = some payload)
    (hroom : "#" ++ channel ∈ rooms)
    (hslug : jsonPath payload ["data", "issue", "project", "slug"] =
      Except.ok (Json.str slug))
    (hign : is_ignored cfg.ignore slug = true)
    (htok : ∃ e ∈ cfg.tokens, reMatch e.1 slug = true) :
    sentry_notification cfg rooms jsonLoads httpGet body
      (some (hmacSha256Hex (utf8 cfg.secret) body)) channel =
      ⟨.response "Valid message, not relayed." 200, true, false, false, []⟩ := by
  clear htok
  cases body with
  | nil => exact absurd rfl hbody
  | cons b bs =>
      simp [sentry_notification, has_valid_sig_correct_sig, hdec, hroom,
        hslug, is_ignoredE_str, hign]

/-- A payload whose only meaningful field is the project slug `"a"`. -/
def payloadSlugA : Json :=
  Json.obj [("data", Json.obj [("issue", Json.obj
    [("project", Json.obj [("slug", Json.str "a")])])])]

/-- Witness for C4: the slug `"a"` matches both the ignore pattern `a*`
and the token pattern `a*`; the request is ignored with a 200 and neither
the token lookup nor the API nor the transport is touched. -/
theorem C4_witness :
    sentry_notification ⟨"f9876", [(patAstar, "tok")], [patAstar]⟩ ["#chan"]
      (decodeConst payloadSlugA) (httpConst 200 Json.null) (utf8 "x")
      (some (hmacSha256Hex (utf8 "f9876") (utf8 "x"))) "chan" =
      ⟨.response "Valid message, not relayed." 200, true, false, false, []⟩ :=
  C4_ignored_request _ _ _ _ _ _ _ "a" (by decide) rfl (by decide) rfl
    (by decide) ⟨(patAstar, "tok"), List.mem_cons_self _ _, by decide⟩

set_option maxRecDepth 400000 in
/-- Counterexample to C5: a verified nonempty body that is not valid JSON
makes `json.loads` raise, so the handler aborts with an uncaught decode
error instead of defaulting fields to the sentinel and continuing. -/
theorem C5_counterexample :
    sentry_notification ⟨"f9876", [], []⟩ ["#chan"] decodeNone
      (httpConst 200 Json.null) (utf8 "notjson")
      (some (hmacSha256Hex (utf8 "f9876") (utf8 "notjson"))) "chan" =
      ⟨.crash PyErr.jsonDecodeError, false, false, false, []⟩ := by
  decide

/-- Claim C5, amended: only the project-slug extraction is guarded — a
`KeyError` there is absorbed, the slug defaults to the sentinel
`"(no project slug)"`, and processing continues into the filter and
authorize steps; a body that fails JSON decoding instead aborts the
handler with an uncaught error (see the counterexample). -/
theorem C5_amended (cfg : Config) (rooms : List String)
    (jsonLoads : List Nat → Option Json)
    (httpGet : String → List (String × String) → Nat × Json)
    (body : List Nat) (channel : String) (payload : Json) (k : String)
    (hbody : body ≠ [])
    (hdec : jsonLoads body = some payload)
    (hroom : "#" ++ channel ∈ rooms)
    (hslug : jsonPath payload ["data", "issue", "project", "slug"] =
      Except.error (PyErr.keyError k)) :
    (is_ignored cfg.ignore "(no project slug)" = true →
        sentry_notification cfg rooms jsonLoads httpGet body
          (some (hmacSha256Hex (utf8 cfg.secret) body)) channel =
          ⟨.response "Valid message, not relayed." 200, true, false, false, []⟩)
    ∧ (is_ignored cfg.ignore "(no project slug)" = false →
        get_project_token cfg.tokens "(no project slug)" = none →
        sentry_notification cfg rooms jsonLoads httpGet body
          (some (hmacSha256Hex (utf8 cfg.secret) body)) channel =
          ⟨.abort 403 (some "Valid message, but no token found."),
           true, true, false, []⟩) := by
  cases body with
  | nil => exact absurd rfl hbody
  | cons b bs =>
      constructor
      · intro hign
        simp [sentry_notification, has_valid_sig_correct_sig, hdec, hroom,
          hslug, is_ignoredE_str, hign]
      · intro hign htok
        simp [sentry_notification, has_valid_sig_correct_sig, hdec, hroom,
          hslug, is_ignoredE_str, get_project_tokenE_str, hign, htok]

/-- Witness for C5 (amended): a payload with no `"data"` key degrades to
the sentinel slug, is not ignored, finds no token for the sentinel, and
ends in the structured 403 "no token found" abort — processing continued
past the parse step. -/
theorem C5_witness :
    sentry_notification ⟨"f9876", [(patA, "tok")], []⟩ ["#chan"]
      (decodeConst (Json.obj [])) (httpConst 200 Json.null) (utf8 "x")
      (some (hmacSha256Hex (utf8 "f9876") (utf8 "x"))) "chan" =
      ⟨.abort 403 (some "Valid message, but no token found."),
       true, true, false, []⟩ :=
  (C5_amended ⟨"f9876", [(patA, "tok")], []⟩ ["#chan"]
    (decodeConst (Json.obj [])) (httpConst 200 Json.null) (utf8 "x") "chan"
    (Json.obj []) "data" (by decide) rfl (by decide) rfl).2 rfl (by decide)

/-- Claim C7: when the request reaches the enrichment step and the API
responds with a non-200 status, `_get_issue` returns its failure value and
the handler dereferences `issue["permalink"]` on it unconditionally,
crashing with an uncaught `TypeError` instead of a structured reject; the
message is never sent. -/
theorem C7_enrichment_crash (cfg : Config) (rooms : List String)
    (jsonLoads : List Nat → Option Json)
    (httpGet : String → List (String × String) → Nat × Json)
    (body : List Nat) (channel : String) (payload : Json) (slug token : String)
    (issue_id : Json)
    (hbody : body ≠ [])
    (hdec : jsonLoads body = some payload)
    (hroom : "#" ++ channel ∈ rooms)
    (hslug : jsonPath payload ["data", "issue", "project", "slug"] =
      Except.ok (Json.str slug))
    (hign : is_ignored cfg.ignore slug = false)
    (htok : get_project_token cfg.tokens slug = some token)
    (hid : jsonPath payload ["data", "issue", "id"] = Except.ok issue_id)
    (hstatus : (httpGet (issueUrl issue_id) (authHeaders token)).1 ≠ 200) :
    get_issue httpGet issue_id token = none
    ∧ sentry_notification cfg rooms jsonLoads httpGet body
        (some (hmacSha256Hex (utf8 cfg.secret) body)) channel =
        ⟨.crash PyErr.typeError, true, true, true, []⟩ := by
  have hgi : get_issue httpGet issue_id token = none := by
    simp [get_issue, hstatus]
  refine ⟨hgi, ?_⟩
  cases body with
  | nil => exact absurd rfl hbody
  | cons b bs =>
      simp [sentry_notification, has_valid_sig_correct_sig, hdec, hroom,
        hslug, is_ignoredE_str, get_project_tokenE_str, hign, htok, hid, hgi]

/-- The scenario-A shaped payload: action `created`, issue id `"1"`,
slug `"a"`, title `"Boom"`. -/
def payloadDemo : Json :=
  Json.obj [("action", Json.str "created"),
    ("data", Json.obj [("issue", Json.obj
      [("id", Json.str "1"),
       ("project", Json.obj [("slug", Json.str "a")]),
       ("title", Json.str "Boom")])])]

/-- Witness for C7: with a 500 from the API, the handler crashes with the
unguarded `TypeError` after having called the API, sending nothing. -/
theorem C7_witness :
    sentry_notification ⟨"f9876", [(patAstar, "tok")], []⟩ ["#chan"]
      (decodeConst payloadDemo) (httpConst 500 Json.null) (utf8 "x")
      (some (hmacSha256Hex (utf8 "f9876") (utf8 "x"))) "chan" =
      ⟨.crash PyErr.typeError, true, true, true, []⟩ :=
  (C7_enrichment_crash ⟨"f9876", [(patAstar, "tok")], []⟩ ["#chan"]
    (decodeConst payloadDemo) (httpConst 500 Json.null) (utf8 "x") "chan"
    payloadDemo "a" "tok" (Json.str "1") (by decide) rfl (by decide) rfl rfl
    (by decide) rfl (by decide)).2

set_option maxRecDepth 400000 in
/-- Counterexample to C8: a request with a valid signature over a body
that is not valid JSON and an unjoined channel crashes in `json.loads`
(which runs before the room check) instead of terminating with the 404. -/
theorem C8_counterexample :
    sentry_notification ⟨"f9876", [], []⟩ [] decodeNone
      (httpConst 200 Json.null) (utf8 "notjson")
      (some (hmacSha256Hex (utf8 "f9876") (utf8 "notjson"))) "chan" =
      ⟨.crash PyErr.jsonDecodeError, false, false, false, []⟩
    ∧ Outcome.crash PyErr.jsonDecodeError ≠ Outcome.abort 404 none := by
  constructor
  · decide
  · decide

/-- Claim C8, amended: for a request with a valid signature and a nonempty
JSON-decodable body whose path-derived channel is not among the joined
rooms, the handler terminates with the 404 abort and performs no token
lookup, no API call and no message send (the body has already been
decoded when the room check runs). -/
theorem C8_unknown_channel (cfg : Config) (rooms : List String)
    (jsonLoads : List Nat → Option Json)
    (httpGet : String → List (String × String) → Nat × Json)
    (body : List Nat) (channel : String) (payload : Json)
    (hbody : body ≠ [])
    (hdec : jsonLoads body = some payload)
    (hroom : "#" ++ channel ∉ rooms) :
    sentry_notification cfg rooms jsonLoads httpGet body
      (some (hmacSha256Hex (utf8 cfg.secret) body)) channel =
      ⟨.abort 404 none, true, false, false, []⟩ := by
  cases body with
  | nil => exact absurd rfl hbody
  | cons b bs =>
      simp [sentry_notification, has_valid_sig_correct_sig, hdec, hroom]

/-- Witness for C8 (amended): with no joined rooms, a verified decodable
request is answered 404 with no further processing. -/
theorem C8_witness :
    sentry_notification ⟨"f9876", [(patAstar, "tok")], []⟩ []
      (decodeConst payloadDemo) (httpConst 200 Json.null) (utf8 "x")
      (some (hmacSha256Hex (utf8 "f9876") (utf8 "x"))) "chan" =
      ⟨.abort 404 none, true, false, false, []⟩ :=
  C8_unknown_channel ⟨"f9876", [(patAstar, "tok")], []⟩ []
    (decodeConst payloadDemo) (httpConst 200 Json.null) (utf8 "x") "chan"
    payloadDemo (by decide) rfl (by decide)

/-- Witness for C10: with the template secret, the empty body under its
own correct digest is still rejected with the 403. -/
theorem C10_witness :
    sentry_notification ⟨"f9876", [(patA, "tok")], []⟩ ["#chan"]
      (decodeConst Json.null) (httpConst 200 Json.null) []
      (some (hmacSha256Hex (utf8 "f9876") [])) "chan" =
      ⟨.abort 403 none, false, false, false, []⟩ :=
  (C10_empty_body_rejected ⟨"f9876", [(patA, "tok")], []⟩ ["#chan"]
    (decodeConst Json.null) (httpConst 200 Json.null) "chan").2
